import Mathlib

/-!
Shallow embedding of the "synced internet radio" client (`radio.js`) and its
fallback relay server, with theorems checking the natural-language
specification against the code.

Conventions of the embedding:
* JS numbers used as times/positions are modelled as `ℚ` (no floating point
  subtleties are relied on by the claims); timestamps are `ℤ` milliseconds.
* `audio.duration` is `Option ℚ`: `none` models `NaN` (metadata not loaded).
  The JS expression `audio.duration || elapsedSeconds` is falsy-aware:
  both `NaN` and `0` select the fallback, which `jsOr` reproduces.
* DOM side effects are reified as an explicit `Effect` list returned next to
  the updated `AudioState`; the `Effect` type also carries constructors for
  effects the specification talks about (prompt display, pointer-listener
  registration) so their absence can be stated.
-/

namespace Radio

/-- A track of the playlist manifest, as consumed by `radio.js`:
`{ title, file, cover, selectedBy? }`. -/
structure Track where
  title : String
  file : String
  cover : String
  selectedBy : Option String
deriving DecidableEq

/-- JS falsy-or on a possibly-unknown duration: `audio.duration || fallback`.
`none` models `NaN`; a duration of `0` is falsy in JS and also selects the
fallback. -/
def jsOr (d : Option ℚ) (fallback : ℚ) : ℚ :=
  match d with
  | none => fallback
  | some x => if x = 0 then fallback else x

/-- The clamp inside `syncPlayback`'s `playAudio` closure (radio.js line 112):
`Math.max(0, Math.min(elapsedSeconds, audio.duration || elapsedSeconds))`. -/
def computeSeekPosition (elapsed : ℚ) (duration : Option ℚ) : ℚ :=
  max 0 (min elapsed (jsOr duration elapsed))

end Radio

namespace Radio

/-- One swap step of the in-place shuffle, `[list[i], list[j]] = [list[j], list[i]]`
(radio.js line 153). Out-of-range indices leave the list unchanged (they do not
occur for the indices the loop produces). -/
def listSwap {α : Type*} (l : List α) (i j : ℕ) : List α :=
  match l[i]?, l[j]? with
  | some a, some b => (l.set i b).set j a
  | some _, none => l
  | none, _ => l

/-- The loop of `shuffle` (radio.js lines 151-154), running the index from
`i` down to `1`: at index `i`, swap with `j = Math.floor(Math.random() * (i + 1))`.
The random source is a parameter `rnd`; `Math.random()` at loop index `i` is
`rnd i`. -/
def shuffleAux {α : Type*} (rnd : ℕ → ℚ) : ℕ → List α → List α
  | 0, l => l
  | i + 1, l => shuffleAux rnd i (listSwap l (i + 1) (Int.toNat ⌊rnd (i + 1) * ((i : ℚ) + 2)⌋))

/-- `shuffle` (radio.js lines 150-156): classic in-place Fisher–Yates from the
last index `list.length - 1` down to `1`. -/
def shuffle {α : Type*} (rnd : ℕ → ℚ) (l : List α) : List α :=
  shuffleAux rnd (l.length - 1) l

theorem cons_set_perm {α : Type*} :
    ∀ (l : List α) (m : ℕ) (b x : α), l[m]? = some b → (b :: l.set m x).Perm (x :: l) := by
  intro l
  induction l with
  | nil => intro m b x h; simp at h
  | cons y ys ih =>
    intro m b x h
    cases m with
    | zero =>
      simp at h
      subst h
      simpa using List.Perm.swap x y ys
    | succ k =>
      simp only [List.getElem?_cons_succ] at h
      simp only [List.set_cons_succ]
      exact (List.Perm.swap y b (ys.set k x)).trans
        ((List.Perm.cons y (ih k b x h)).trans (List.Perm.swap x y ys))

theorem set_set_perm {α : Type*} :
    ∀ (l : List α) (i j : ℕ) (a b : α), l[i]? = some a → l[j]? = some b →
      ((l.set i b).set j a).Perm l := by
  intro l
  induction l with
  | nil => intro i j a b h; simp at h
  | cons y ys ih =>
    intro i j a b hi hj
    cases i with
    | zero =>
      simp at hi
      subst hi
      cases j with
      | zero =>
        simp at hj
        subst hj
        simp
      | succ m =>
        simp only [List.getElem?_cons_succ] at hj
        simp only [List.set_cons_zero, List.set_cons_succ]
        exact cons_set_perm ys m b y hj
    | succ k =>
      simp only [List.getElem?_cons_succ] at hi
      cases j with
      | zero =>
        have hy : y = b := by simpa using hj
        rw [← hy]
        simp only [List.set_cons_succ, List.set_cons_zero]
        exact cons_set_perm ys k a y hi
      | succ m =>
        simp only [List.getElem?_cons_succ] at hj
        simp only [List.set_cons_succ]
        exact List.Perm.cons y (ih k m a b hi hj)

theorem listSwap_perm {α : Type*} (l : List α) (i j : ℕ) : (listSwap l i j).Perm l := by
  cases hi : l[i]? with
  | none =>
    unfold listSwap
    rw [hi]
  | some a =>
    cases hj : l[j]? with
    | none =>
      unfold listSwap
      rw [hi, hj]
    | some b =>
      unfold listSwap
      rw [hi, hj]
      exact set_set_perm l i j a b hi hj

theorem shuffleAux_perm {α : Type*} (rnd : ℕ → ℚ) :
    ∀ (n : ℕ) (l : List α), (shuffleAux rnd n l).Perm l := by
  intro n
  induction n with
  | zero => intro l; exact List.Perm.refl l
  | succ i ih =>
    intro l
    exact (ih _).trans (listSwap_perm l (i + 1) _)

end Radio

namespace Radio

/-- The observable state of the `<audio>` element that `radio.js` reads and
writes: `src`, `currentTime`, `duration` (`none` = `NaN`, metadata not loaded)
and `readyState`. -/
structure AudioState where
  src : String
  currentTime : ℚ
  duration : Option ℚ
  readyState : ℕ
deriving DecidableEq

/-- Reified DOM side effects of the playback functions. The last four
constructors are never produced by the embedded code; they exist so that the
specification's claimed effects (a prompt, a one-shot pointer-interaction
resume) can be stated and their absence proved. -/
inductive Effect where
  | setSrc (url : String)
  | setCurrentTime (t : ℚ)
  | playRequested
  | logged (msg : String)
  | displayed (t : Track)
  | setCoverSrc (url : String)
  | canplayListenerAdded
  | timeoutScheduled (ms : ℕ)
  | promptShown
  | pointerListenerAdded
deriving DecidableEq

/-- `updateDisplay` (radio.js lines 128-134): set title/artist/selector text,
then the cover image source — all taken verbatim from the track. -/
def updateDisplayEffects (t : Track) : List Effect :=
  [Effect.displayed t, Effect.setCoverSrc t.cover]

/-- The `playAudio` closure of `syncPlayback` (radio.js lines 110-116): clamp
the elapsed time, assign `audio.currentTime`, request playback (a rejection by
autoplay policy is only logged by the `.catch`), then update the display.
`playRejected` records whether the environment rejects the play request. -/
def playAudioStep (a : AudioState) (elapsed : ℚ) (t : Track) (playRejected : Bool) :
    AudioState × List Effect :=
  let clamped := computeSeekPosition elapsed a.duration
  ({ a with currentTime := clamped },
    [Effect.setCurrentTime clamped, Effect.playRequested]
      ++ (if playRejected then [Effect.logged "Autoplay blocked"] else [])
      ++ updateDisplayEffects t)

/-- `syncPlayback` (radio.js lines 104-125): resolve the current track; if it
is absent return with no effect; otherwise assign `audio.src` unconditionally,
then either run `playAudio` at once (`readyState >= 2`) or register a one-shot
`canplay` listener plus a 1000 ms fallback timer (the deferred `playAudio` is
represented by those two recorded effects). -/
def syncPlayback (a : AudioState) (playlist : List Track) (currentIndex : ℕ)
    (elapsed : ℚ) (playRejected : Bool) : AudioState × List Effect :=
  match playlist[currentIndex]? with
  | none => (a, [])
  | some track =>
    let a1 := { a with src := track.file }
    if 2 ≤ a1.readyState then
      let r := playAudioStep a1 elapsed track playRejected
      (r.1, Effect.setSrc track.file :: r.2)
    else
      (a1, [Effect.setSrc track.file, Effect.canplayListenerAdded,
            Effect.timeoutScheduled 1000])

/-- `playSongLocally` (radio.js lines 159-166): resolve the current track; if
absent return with no effect; otherwise assign `audio.src`, request playback
(rejection only logged) and update the display. -/
def playSongLocally (a : AudioState) (playlist : List Track) (currentIndex : ℕ)
    (playRejected : Bool) : AudioState × List Effect :=
  match playlist[currentIndex]? with
  | none => (a, [])
  | some track =>
    ({ a with src := track.file },
      [Effect.setSrc track.file, Effect.playRequested]
        ++ (if playRejected then [Effect.logged "Autoplay blocked"] else [])
        ++ updateDisplayEffects track)

/-- Whether a string already carries a URL scheme marker (`"://"`), as in the
absolute `https://...` entries of the track manifest. -/
def hasScheme (s : String) : Bool := decide ("://".toList <:+: s.toList)

/-- Sample track with a relative file path, as in the repository's local
`tracks.json` (`"file": "music/Song Name.mp3"`). -/
def tRel : Track := ⟨"Neo Seoul", "music/a.mp3", "covers/a.jpg", none⟩

/-- Sample ready audio element: metadata loaded (duration 200 s),
`readyState` 4. -/
def aReady : AudioState := ⟨"", 0, some 200, 4⟩

end Radio

/-- C1: the seek position computed before playback lies in `[0, d]` whenever the
media duration is known to be `d > 0`, and equals the elapsed time exactly when
the duration is unknown, for every non-negative elapsed time. -/
theorem seek_position_clamped (elapsed : ℚ) (duration : Option ℚ)
    (helapsed : 0 ≤ elapsed) :
    (∀ d : ℚ, duration = some d → 0 < d →
        0 ≤ Radio.computeSeekPosition elapsed duration ∧
        Radio.computeSeekPosition elapsed duration ≤ d) ∧
    (duration = none → Radio.computeSeekPosition elapsed duration = elapsed) := by
  constructor
  · intro d hd hdpos
    subst hd
    simp only [Radio.computeSeekPosition, Radio.jsOr]
    rw [if_neg (ne_of_gt hdpos)]
    refine ⟨le_max_left 0 _, ?_⟩
    rw [max_le_iff]
    exact ⟨le_of_lt hdpos, min_le_right elapsed d⟩
  · intro hnone
    subst hnone
    simp only [Radio.computeSeekPosition, Radio.jsOr]
    rw [min_self, max_eq_right helapsed]

/-- C1 witness: concrete evaluation at elapsed 30 s, duration 200 s. -/
theorem seek_position_clamped_witness :
    (0 : ℚ) ≤ 30 ∧
    ((∀ d : ℚ, some (200 : ℚ) = some d → 0 < d →
        0 ≤ Radio.computeSeekPosition 30 (some 200) ∧
        Radio.computeSeekPosition 30 (some 200) ≤ d) ∧
      (some (200 : ℚ) = none → Radio.computeSeekPosition 30 (some 200) = 30)) :=
  ⟨by norm_num, seek_position_clamped 30 (some 200) (by norm_num)⟩

/-- C9: `shuffle` returns a permutation of its input (same multiset, same
length), and is the identity on lists of length at most 1. -/
theorem shuffle_perm {α : Type*} (rnd : ℕ → ℚ) (l : List α) :
    (Radio.shuffle rnd l).Perm l ∧
    (Radio.shuffle rnd l).length = l.length ∧
    (l.length ≤ 1 → Radio.shuffle rnd l = l) := by
  refine ⟨Radio.shuffleAux_perm rnd _ l, (Radio.shuffleAux_perm rnd _ l).length_eq, ?_⟩
  intro hlen
  have h0 : l.length - 1 = 0 := by omega
  unfold Radio.shuffle
  rw [h0]
  rfl

/-- C10: when the current index does not resolve to a track (empty playlist or
index at or past its length), both `syncPlayback` and `playSongLocally` return
early: the audio element is untouched and no effect is produced. -/
theorem unresolved_index_no_effect (a : Radio.AudioState) (playlist : List Radio.Track)
    (currentIndex : ℕ) (elapsed : ℚ) (playRejected : Bool)
    (h : playlist.length ≤ currentIndex) :
    Radio.syncPlayback a playlist currentIndex elapsed playRejected = (a, []) ∧
    Radio.playSongLocally a playlist currentIndex playRejected = (a, []) := by
  have hnone : playlist[currentIndex]? = none := by
    rw [List.getElem?_eq_none_iff]
    exact h
  constructor
  · unfold Radio.syncPlayback
    rw [hnone]
  · unfold Radio.playSongLocally
    rw [hnone]

/-- C10 witness: concrete evaluation on the empty playlist at index 0. -/
theorem unresolved_index_no_effect_witness :
    ([] : List Radio.Track).length ≤ 0 ∧
    (Radio.syncPlayback Radio.aReady [] 0 30 false = (Radio.aReady, []) ∧
      Radio.playSongLocally Radio.aReady [] 0 false = (Radio.aReady, [])) :=
  ⟨by decide, unresolved_index_no_effect Radio.aReady [] 0 30 false (by decide)⟩

/-- C4: evaluation at the failing input. Two consecutive `syncPlayback` calls
resolve the same track with the same file URL and the same seek target; the
first call loads the source, yet the second call still re-assigns `audio.src`
(restarting the media pipeline) and re-assigns `currentTime`, because the
assignment at radio.js line 108 is unconditional. -/
theorem resync_reassigns_src :
    (Radio.syncPlayback Radio.aReady [Radio.tRel] 0 30 false).1.src = Radio.tRel.file ∧
    Radio.Effect.setSrc Radio.tRel.file ∈
      (Radio.syncPlayback (Radio.syncPlayback Radio.aReady [Radio.tRel] 0 30 false).1
        [Radio.tRel] 0 30 false).2 ∧
    Radio.Effect.setCurrentTime 30 ∈
      (Radio.syncPlayback (Radio.syncPlayback Radio.aReady [Radio.tRel] 0 30 false).1
        [Radio.tRel] 0 30 false).2 := by
  decide

/-- C5 counterexample: at a concrete rejected play request, the effects of
`syncPlayback` contain only the log entry — no prompt is shown and no
pointer-interaction listener is registered, contradicting the claimed blocked
sub-state with one-shot resume. -/
theorem autoplay_block_counterexample :
    Radio.Effect.logged "Autoplay blocked" ∈ (Radio.syncPlayback Radio.aReady [Radio.tRel] 0 30 true).2 ∧
    Radio.Effect.promptShown ∉ (Radio.syncPlayback Radio.aReady [Radio.tRel] 0 30 true).2 ∧
    Radio.Effect.pointerListenerAdded ∉ (Radio.syncPlayback Radio.aReady [Radio.tRel] 0 30 true).2 := by
  decide

/-- C5 amended: whenever a play request is rejected by autoplay policy, the
client merely logs "Autoplay blocked"; neither playback path ever shows a
prompt or registers a pointer-interaction listener, so no automatic resume
exists. -/
theorem autoplay_block_only_logs (a : Radio.AudioState) (playlist : List Radio.Track)
    (currentIndex : ℕ) (elapsed : ℚ) :
    Radio.Effect.promptShown ∉ (Radio.syncPlayback a playlist currentIndex elapsed true).2 ∧
    Radio.Effect.pointerListenerAdded ∉ (Radio.syncPlayback a playlist currentIndex elapsed true).2 ∧
    Radio.Effect.promptShown ∉ (Radio.playSongLocally a playlist currentIndex true).2 ∧
    Radio.Effect.pointerListenerAdded ∉ (Radio.playSongLocally a playlist currentIndex true).2 ∧
    (∀ t, playlist[currentIndex]? = some t → 2 ≤ a.readyState →
      Radio.Effect.logged "Autoplay blocked" ∈ (Radio.syncPlayback a playlist currentIndex elapsed true).2) := by
  refine ⟨?_, ?_, ?_, ?_, ?_⟩
  · cases h : playlist[currentIndex]? with
    | none => simp [Radio.syncPlayback, h]
    | some t =>
      simp only [Radio.syncPlayback, h]
      split
      · simp [Radio.playAudioStep, Radio.updateDisplayEffects]
      · simp
  · cases h : playlist[currentIndex]? with
    | none => simp [Radio.syncPlayback, h]
    | some t =>
      simp only [Radio.syncPlayback, h]
      split
      · simp [Radio.playAudioStep, Radio.updateDisplayEffects]
      · simp
  · cases h : playlist[currentIndex]? with
    | none => simp [Radio.playSongLocally, h]
    | some t => simp [Radio.playSongLocally, h, Radio.updateDisplayEffects]
  · cases h : playlist[currentIndex]? with
    | none => simp [Radio.playSongLocally, h]
    | some t => simp [Radio.playSongLocally, h, Radio.updateDisplayEffects]
  · intro t h hready
    simp only [Radio.syncPlayback, h]
    rw [if_pos hready]
    simp [Radio.playAudioStep]

/-- C5 amended witness: concrete evaluation of the general statement. -/
theorem autoplay_block_only_logs_witness :
    Radio.Effect.promptShown ∉ (Radio.syncPlayback Radio.aReady [Radio.tRel] 0 30 true).2 ∧
    Radio.Effect.pointerListenerAdded ∉ (Radio.syncPlayback Radio.aReady [Radio.tRel] 0 30 true).2 ∧
    Radio.Effect.promptShown ∉ (Radio.playSongLocally Radio.aReady [Radio.tRel] 0 true).2 ∧
    Radio.Effect.pointerListenerAdded ∉ (Radio.playSongLocally Radio.aReady [Radio.tRel] 0 true).2 ∧
    (∀ t, [Radio.tRel][(0 : ℕ)]? = some t → 2 ≤ Radio.aReady.readyState →
      Radio.Effect.logged "Autoplay blocked" ∈ (Radio.syncPlayback Radio.aReady [Radio.tRel] 0 30 true).2) :=
  autoplay_block_only_logs Radio.aReady [Radio.tRel] 0 30

/-- C8 counterexample: for a track whose `file` is the relative path
`"music/a.mp3"`, `syncPlayback` assigns exactly that string to `audio.src` —
no base-URL prefix is added and the used media source carries no URL scheme,
so it is not an absolute fetchable URL. -/
theorem relative_src_not_normalized :
    (Radio.syncPlayback Radio.aReady [Radio.tRel] 0 0 false).1.src = "music/a.mp3" ∧
    Radio.hasScheme "music/a.mp3" = false ∧
    Radio.hasScheme (Radio.syncPlayback Radio.aReady [Radio.tRel] 0 0 false).1.src = false := by
  refine ⟨by decide, by decide, by decide⟩

/-- C8 amended: both playback paths use a track's `file` entry verbatim as the
audio source and its `cover` entry verbatim for the display — the identity on
absolute URLs, but also the identity on relative paths (no code-level base-URL
prefixing; resolution of relative paths is left to the browser). -/
theorem media_source_verbatim (a : Radio.AudioState) (playlist : List Radio.Track)
    (currentIndex : ℕ) (elapsed : ℚ) (playRejected : Bool) (t : Radio.Track)
    (h : playlist[currentIndex]? = some t) :
    (Radio.syncPlayback a playlist currentIndex elapsed playRejected).1.src = t.file ∧
    (Radio.playSongLocally a playlist currentIndex playRejected).1.src = t.file ∧
    Radio.Effect.setCoverSrc t.cover ∈
      (Radio.playSongLocally a playlist currentIndex playRejected).2 := by
  refine ⟨?_, ?_, ?_⟩
  · simp only [Radio.syncPlayback, h]
    split
    · simp [Radio.playAudioStep]
    · rfl
  · simp [Radio.playSongLocally, h]
  · simp [Radio.playSongLocally, h, Radio.updateDisplayEffects]

/-- C8 amended witness: concrete evaluation at the relative-path track. -/
theorem media_source_verbatim_witness :
    [Radio.tRel][(0 : ℕ)]? = some Radio.tRel ∧
    ((Radio.syncPlayback Radio.aReady [Radio.tRel] 0 0 false).1.src = Radio.tRel.file ∧
      (Radio.playSongLocally Radio.aReady [Radio.tRel] 0 false).1.src = Radio.tRel.file ∧
      Radio.Effect.setCoverSrc Radio.tRel.cover ∈
        (Radio.playSongLocally Radio.aReady [Radio.tRel] 0 false).2) :=
  ⟨by decide, media_source_verbatim Radio.aReady [Radio.tRel] 0 0 false Radio.tRel (by decide)⟩

namespace Radio

/-- The `radio/state` record as delivered by the store subscription; fields are
optional because the JS reads them defensively (`state.currentTrackIndex || 0`,
`state.startTime || Date.now()`). -/
structure RemoteState where
  currentTrackIndex : Option ℕ
  startTime : Option ℤ
deriving DecidableEq

/-- The client's mutable globals `playlist` and `currentIndex`
(radio.js lines 19-20). -/
structure ClientState where
  playlist : List Track
  currentIndex : ℕ
deriving DecidableEq

/-- A (possibly partial) write against the store's radio state: a field that is
`none` is absent from the written object and leaves the stored value
untouched. -/
structure StateUpdate where
  currentTrackIndex : Option ℕ
  startTime : Option ℤ
  lastUpdated : Option String
  tracks : Option (List Track)
deriving DecidableEq

/-- The store-side radio record: the `radio/tracks` list plus the
`radio/state` fields. -/
structure Store where
  tracks : List Track
  currentTrackIndex : ℕ
  startTime : ℤ
  lastUpdated : Option String
deriving DecidableEq

/-- Apply a partial `StateUpdate` to the store: only the fields present in the
update are overwritten. -/
def applyStateUpdate (st : Store) (u : StateUpdate) : Store :=
  { tracks := u.tracks.getD st.tracks,
    currentTrackIndex := u.currentTrackIndex.getD st.currentTrackIndex,
    startTime := u.startTime.getD st.startTime,
    lastUpdated := match u.lastUpdated with | some x => some x | none => st.lastUpdated }

/-- The connected branch of the `ended` listener (radio.js lines 170-180):
advance `currentIndex = (currentIndex + 1) % playlist.length` and issue the
partial update `{currentTrackIndex, startTime, lastUpdated}` against
`radio/state`. `now` is `Date.now()` and `iso` is `new Date().toISOString()`.
Returns the new local index and the written update. -/
def onEndedSynced (playlist : List Track) (currentIndex : ℕ) (now : ℤ) (iso : String) :
    ℕ × StateUpdate :=
  let newIndex := (currentIndex + 1) % playlist.length
  (newIndex,
    { currentTrackIndex := some newIndex, startTime := some now,
      lastUpdated := some iso, tracks := none })

/-- The `radio/tracks` subscription callback (radio.js lines 82-88): adopt the
snapshot verbatim when it is a non-null array (`snapshot = some ts`), ignore it
otherwise. The callback performs no store writes; the returned list records the
writes it issues (always empty). -/
def tracksCallback (s : ClientState) (snapshot : Option (List Track)) :
    ClientState × List StateUpdate :=
  match snapshot with
  | some ts => ({ s with playlist := ts }, [])
  | none => (s, [])

/-- The `radio/state` subscription callback (radio.js lines 92-100): when the
snapshot is non-null, set `currentIndex = state.currentTrackIndex || 0` and
drive playback via `syncPlayback` (whose audio-element effects are modelled
separately and do not touch `playlist`/`currentIndex`); a null snapshot is
ignored. The callback performs no store writes. -/
def stateCallback (s : ClientState) (snapshot : Option RemoteState) :
    ClientState × List StateUpdate :=
  match snapshot with
  | some st => ({ s with currentIndex := st.currentTrackIndex.getD 0 }, [])
  | none => (s, [])

/-- The inputs that drive the client's globals: the two store subscriptions and
the audio element's `ended` event. -/
inductive Event where
  | tracksUpdate (snapshot : Option (List Track))
  | stateUpdate (snapshot : Option RemoteState)
  | ended
deriving DecidableEq

/-- One client transition (radio.js lines 82-100 and 169-185). Both branches of
the `ended` listener advance `currentIndex` by `(currentIndex + 1) %
playlist.length`; on an empty playlist the JS expression is `NaN` (never a
valid index), modelled here as the likewise-invalid `currentIndex + 1`. -/
def step (s : ClientState) : Event → ClientState
  | Event.tracksUpdate snap => (tracksCallback s snap).1
  | Event.stateUpdate snap => (stateCallback s snap).1
  | Event.ended => { s with currentIndex := (s.currentIndex + 1) % s.playlist.length }

/-- Run the client from a state through a sequence of events. -/
def run (s : ClientState) (es : List Event) : ClientState := es.foldl step s

/-- The invariant of claim C3: the current index addresses the currently known
playlist whenever that playlist is non-empty. -/
def indexValid (s : ClientState) : Prop :=
  s.playlist ≠ [] → s.currentIndex < s.playlist.length

instance decIndexValid (s : ClientState) : Decidable (indexValid s) :=
  inferInstanceAs (Decidable (_ → _))

/-- The in-range discipline the store inputs must obey for the C3 invariant to
be maintained: a delivered playlist must not shrink past the current index, a
delivered state must carry an in-range index for the known playlist, and the
`ended` event presupposes a track was playing (non-empty playlist). -/
def goodEvent (s : ClientState) : Event → Prop
  | Event.tracksUpdate none => True
  | Event.tracksUpdate (some ts) => ts ≠ [] → s.currentIndex < ts.length
  | Event.stateUpdate none => True
  | Event.stateUpdate (some st) => s.playlist ≠ [] → st.currentTrackIndex.getD 0 < s.playlist.length
  | Event.ended => s.playlist ≠ []

instance decGoodEvent (s : ClientState) : (e : Event) → Decidable (goodEvent s e)
  | Event.tracksUpdate none => isTrue trivial
  | Event.tracksUpdate (some _) => inferInstanceAs (Decidable (_ → _))
  | Event.stateUpdate none => isTrue trivial
  | Event.stateUpdate (some _) => inferInstanceAs (Decidable (_ → _))
  | Event.ended => inferInstanceAs (Decidable (_ ≠ _))

/-- A trace all of whose events respect `goodEvent` at the state where they are
processed. -/
def GoodTrace : ClientState → List Event → Prop
  | _, [] => True
  | s, e :: es => goodEvent s e ∧ GoodTrace (step s e) es

instance decGoodTrace : (s : ClientState) → (es : List Event) → Decidable (GoodTrace s es)
  | _, [] => isTrue trivial
  | s, e :: es =>
    haveI : Decidable (GoodTrace (step s e) es) := decGoodTrace (step s e) es
    inferInstanceAs (Decidable (_ ∧ _))

theorem step_preserves_indexValid (s : ClientState) (e : Event)
    (h0 : indexValid s) (he : goodEvent s e) : indexValid (step s e) := by
  cases e with
  | tracksUpdate snap =>
    cases snap with
    | none => exact h0
    | some ts => exact he
  | stateUpdate snap =>
    cases snap with
    | none => exact h0
    | some st => exact he
  | ended =>
    intro _
    have hlen : 0 < s.playlist.length := List.length_pos.mpr he
    exact Nat.mod_lt _ hlen

end Radio

/-- C2: on a natural track end in connected mode, the local index and the
written `radio/state` update both carry exactly `(i + 1) mod n`, the update
contains no `tracks` field, and applying it to any store leaves the store's
tracks untouched. -/
theorem ended_advances_mod (playlist : List Radio.Track) (i : ℕ) (now : ℤ) (iso : String)
    (h : 0 < playlist.length) :
    (Radio.onEndedSynced playlist i now iso).1 = (i + 1) % playlist.length ∧
    (Radio.onEndedSynced playlist i now iso).1 < playlist.length ∧
    (Radio.onEndedSynced playlist i now iso).2.currentTrackIndex =
      some ((i + 1) % playlist.length) ∧
    (Radio.onEndedSynced playlist i now iso).2.startTime = some now ∧
    (Radio.onEndedSynced playlist i now iso).2.tracks = none ∧
    (∀ st : Radio.Store,
      (Radio.applyStateUpdate st (Radio.onEndedSynced playlist i now iso).2).tracks = st.tracks) := by
  refine ⟨rfl, Nat.mod_lt _ h, rfl, rfl, rfl, ?_⟩
  intro st
  simp [Radio.applyStateUpdate, Radio.onEndedSynced]

/-- C2 witness: concrete evaluation with a two-track playlist at index 1 —
the update wraps the index to 0 and carries no tracks field. -/
theorem ended_advances_mod_witness :
    0 < [Radio.tRel, Radio.tRel].length ∧
    ((Radio.onEndedSynced [Radio.tRel, Radio.tRel] 1 1700000000000 "t").1 =
        (1 + 1) % [Radio.tRel, Radio.tRel].length ∧
      (Radio.onEndedSynced [Radio.tRel, Radio.tRel] 1 1700000000000 "t").1 <
        [Radio.tRel, Radio.tRel].length ∧
      (Radio.onEndedSynced [Radio.tRel, Radio.tRel] 1 1700000000000 "t").2.currentTrackIndex =
        some ((1 + 1) % [Radio.tRel, Radio.tRel].length) ∧
      (Radio.onEndedSynced [Radio.tRel, Radio.tRel] 1 1700000000000 "t").2.startTime =
        some 1700000000000 ∧
      (Radio.onEndedSynced [Radio.tRel, Radio.tRel] 1 1700000000000 "t").2.tracks = none ∧
      (∀ st : Radio.Store,
        (Radio.applyStateUpdate st
          (Radio.onEndedSynced [Radio.tRel, Radio.tRel] 1 1700000000000 "t").2).tracks =
          st.tracks)) :=
  ⟨by decide, ended_advances_mod [Radio.tRel, Radio.tRel] 1 1700000000000 "t" (by decide)⟩

/-- C3 counterexample: a reachable client state violating the index invariant.
Starting from the initial globals (`playlist = []`, `currentIndex = 0`), a
tracks snapshot delivers a one-element playlist and a state snapshot then
delivers `currentTrackIndex = 3`; the resulting state has a non-empty playlist
but `currentIndex = 3 ≥ 1`, because the state callback performs no range
check. -/
theorem index_invariant_counterexample :
    (Radio.run ⟨[], 0⟩
        [Radio.Event.tracksUpdate (some [Radio.tRel]),
         Radio.Event.stateUpdate (some ⟨some 3, some 0⟩)]).playlist ≠ [] ∧
    ¬ ((Radio.run ⟨[], 0⟩
        [Radio.Event.tracksUpdate (some [Radio.tRel]),
         Radio.Event.stateUpdate (some ⟨some 3, some 0⟩)]).currentIndex <
      (Radio.run ⟨[], 0⟩
        [Radio.Event.tracksUpdate (some [Radio.tRel]),
         Radio.Event.stateUpdate (some ⟨some 3, some 0⟩)]).playlist.length) := by
  decide

/-- C3 amended: the index invariant holds in every reachable state provided
the driving events are in-range — delivered playlists do not shrink past the
current index, delivered state records carry an index valid for the locally
known playlist, and `ended` only fires while a track of a non-empty playlist is
playing. Without those provisos the invariant fails (the callbacks perform no
clamping), as the counterexample shows. -/
theorem index_invariant_of_good_trace (s : Radio.ClientState) (es : List Radio.Event)
    (h0 : Radio.indexValid s) (hg : Radio.GoodTrace s es) :
    Radio.indexValid (Radio.run s es) := by
  induction es generalizing s with
  | nil => exact h0
  | cons e es ih =>
    exact ih (Radio.step s e)
      (Radio.step_preserves_indexValid s e h0 hg.1) hg.2

/-- C3 amended witness: a concrete in-range trace from the initial state keeps
the index valid. -/
theorem index_invariant_of_good_trace_witness :
    Radio.indexValid (⟨[], 0⟩ : Radio.ClientState) ∧
    Radio.GoodTrace ⟨[], 0⟩
      [Radio.Event.tracksUpdate (some [Radio.tRel, Radio.tRel]),
       Radio.Event.stateUpdate (some ⟨some 1, some 0⟩), Radio.Event.ended] ∧
    Radio.indexValid (Radio.run ⟨[], 0⟩
      [Radio.Event.tracksUpdate (some [Radio.tRel, Radio.tRel]),
       Radio.Event.stateUpdate (some ⟨some 1, some 0⟩), Radio.Event.ended]) :=
  ⟨by decide, by decide,
    index_invariant_of_good_trace ⟨[], 0⟩
      [Radio.Event.tracksUpdate (some [Radio.tRel, Radio.tRel]),
       Radio.Event.stateUpdate (some ⟨some 1, some 0⟩), Radio.Event.ended]
      (by decide) (by decide)⟩

/-- C6 counterexample: when the state subscription delivers an absent
(`null`) `radio/state` snapshot, the client performs no store write at all —
there is no read-before-write initializer in `setupFirebaseSync`, so the
claimed single initial write `{tracks, currentTrackIndex: 0, startTime}` does
not happen. -/
theorem no_initializer_write :
    (Radio.stateCallback ⟨[Radio.tRel], 0⟩ none).2 = [] ∧
    ¬ ((Radio.stateCallback ⟨[Radio.tRel], 0⟩ none).2.length = 1) := by
  decide

/-- C6 amended: when connected, the loader adopts the store's track order
verbatim (no reshuffle), and neither subscription callback ever writes to the
store — in particular a client observing an absent state record writes nothing
(there is no initializer). -/
theorem connected_loader_verbatim_no_write (s : Radio.ClientState) (ts : List Radio.Track)
    (snapT : Option (List Radio.Track)) (snapS : Option Radio.RemoteState) :
    (Radio.tracksCallback s (some ts)).1.playlist = ts ∧
    (Radio.tracksCallback s snapT).2 = [] ∧
    (Radio.stateCallback s snapS).2 = [] := by
  refine ⟨rfl, ?_, ?_⟩
  · cases snapT <;> rfl
  · cases snapS <;> rfl

namespace Relay

/-- A WebSocket client as the relay server sees it: an identity and whether its
connection is currently `OPEN`. -/
structure Client where
  id : ℕ
  isOpen : Bool
deriving DecidableEq

/-- The relay server's in-memory `playbackState`
(radio.js server part, lines 291-296). -/
structure PlaybackState where
  currentTrackIndex : ℕ
  isPlaying : Bool
  startTime : ℤ
  tracks : List Radio.Track
deriving DecidableEq

/-- The JSON message `{type: 'state', ...playbackState}` the server sends. -/
structure StateMsg where
  type : String
  currentTrackIndex : ℕ
  isPlaying : Bool
  startTime : ℤ
  tracks : List Radio.Track
deriving DecidableEq

/-- Spread of the playback state into a `state` message. -/
def stateMsg (st : PlaybackState) : StateMsg :=
  ⟨"state", st.currentTrackIndex, st.isPlaying, st.startTime, st.tracks⟩

/-- `broadcastState` (server lines 307-318): send the state message to every
client of `wss.clients` whose `readyState` is `OPEN`; no client is excluded.
The result is the list of `(client id, message)` sends. -/
def broadcastState (st : PlaybackState) (clients : List Client) : List (ℕ × StateMsg) :=
  (clients.filter fun c => c.isOpen).map fun c => (c.id, stateMsg st)

/-- The `next` branch of the message handler (server lines 335-338): advance
`currentTrackIndex` modulo `tracks.length`, reset `startTime` to now, then
broadcast. (`tracks.length = 0` would make the JS index `NaN`; the handler is
only meaningful for a non-empty track list.) -/
def handleNext (st : PlaybackState) (clients : List Client) (now : ℤ) :
    PlaybackState × List (ℕ × StateMsg) :=
  let st' := { st with
    currentTrackIndex := (st.currentTrackIndex + 1) % st.tracks.length,
    startTime := now }
  (st', broadcastState st' clients)

end Relay

/-- C7: processing a `next` command leaves `tracks` unchanged, advances the
index by one modulo the track count (staying in range), resets `startTime`,
and sends the new state to every client whose connection is open — the sender,
being one of `wss.clients`, included — and every sent message carries the
unchanged tracks. -/
theorem next_broadcasts_new_state (st : Relay.PlaybackState) (clients : List Relay.Client)
    (now : ℤ) (h : 0 < st.tracks.length) :
    (Relay.handleNext st clients now).1.tracks = st.tracks ∧
    (Relay.handleNext st clients now).1.currentTrackIndex =
      (st.currentTrackIndex + 1) % st.tracks.length ∧
    (Relay.handleNext st clients now).1.currentTrackIndex < st.tracks.length ∧
    (Relay.handleNext st clients now).1.startTime = now ∧
    (∀ c ∈ clients, c.isOpen = true →
      (c.id, Relay.stateMsg (Relay.handleNext st clients now).1) ∈
        (Relay.handleNext st clients now).2) ∧
    (∀ p ∈ (Relay.handleNext st clients now).2, p.2.tracks = st.tracks) := by
  refine ⟨rfl, rfl, Nat.mod_lt _ h, rfl, ?_, ?_⟩
  · intro c hc hopen
    simp only [Relay.handleNext, Relay.broadcastState]
    exact List.mem_map.mpr ⟨c, List.mem_filter.mpr ⟨hc, by simp [hopen]⟩, rfl⟩
  · intro p hp
    simp only [Relay.handleNext, Relay.broadcastState] at hp
    rcases List.mem_map.mp hp with ⟨c, _, rfl⟩
    rfl

/-- C7 witness: a concrete `next` on a one-track state with one open and one
closed client — the open client (also standing for the sender) receives the
new state. -/
theorem next_broadcasts_new_state_witness :
    0 < (Relay.PlaybackState.mk 0 true 0 [Radio.tRel]).tracks.length ∧
    ((Relay.handleNext ⟨0, true, 0, [Radio.tRel]⟩ [⟨1, true⟩, ⟨2, false⟩] 5).1.tracks =
        [Radio.tRel] ∧
      (Relay.handleNext ⟨0, true, 0, [Radio.tRel]⟩ [⟨1, true⟩, ⟨2, false⟩] 5).1.currentTrackIndex =
        (0 + 1) % [Radio.tRel].length ∧
      (Relay.handleNext ⟨0, true, 0, [Radio.tRel]⟩ [⟨1, true⟩, ⟨2, false⟩] 5).1.currentTrackIndex <
        [Radio.tRel].length ∧
      (Relay.handleNext ⟨0, true, 0, [Radio.tRel]⟩ [⟨1, true⟩, ⟨2, false⟩] 5).1.startTime = 5 ∧
      (∀ c ∈ [Relay.Client.mk 1 true, Relay.Client.mk 2 false], c.isOpen = true →
        (c.id, Relay.stateMsg (Relay.handleNext ⟨0, true, 0, [Radio.tRel]⟩
            [⟨1, true⟩, ⟨2, false⟩] 5).1) ∈
          (Relay.handleNext ⟨0, true, 0, [Radio.tRel]⟩ [⟨1, true⟩, ⟨2, false⟩] 5).2) ∧
      (∀ p ∈ (Relay.handleNext ⟨0, true, 0, [Radio.tRel]⟩ [⟨1, true⟩, ⟨2, false⟩] 5).2,
        p.2.tracks = [Radio.tRel])) :=
  ⟨by decide, next_broadcasts_new_state ⟨0, true, 0, [Radio.tRel]⟩
    [⟨1, true⟩, ⟨2, false⟩] 5 (by decide)⟩

/-- C9 witness: concrete evaluation on a one-element playlist, where the
shuffle is the identity. -/
theorem shuffle_perm_witness :
    (Radio.shuffle (fun _ => 1 / 2) [Radio.tRel]).Perm [Radio.tRel] ∧
    (Radio.shuffle (fun _ => 1 / 2) [Radio.tRel]).length = [Radio.tRel].length ∧
    ([Radio.tRel].length ≤ 1 → Radio.shuffle (fun _ => 1 / 2) [Radio.tRel] = [Radio.tRel]) :=
  shuffle_perm (fun _ => 1 / 2) [Radio.tRel]
